import Mathlib

/-!
Verification of the AAG Cloud Sensor weather module
(`panoptes/weather/AAGCloudSensor.py`).

Shallow embedding of the frame codec, the query engine, the sampling
aggregators, the switch resolver, the PWM getter and the telemetry
store, with theorems settling the specification claims about them.

Conventions: response buffers are lists of characters (the code decodes
the serial bytes to a `str` before any check); fallible Python code
(`TypeError`, `AssertionError`, `AttributeError`, `IndexError`) is
modelled with `Except Unit` or `Option`; floats are modelled as `Rat`.
-/

/-- Python `\s` on the ASCII range: the whitespace characters accepted by
the capture classes and the handshake pattern of `AAGCloudSensor.query`. -/
def isPySpace (c : Char) : Bool :=
  c == ' ' || c == '\t' || c == '\n' || c == '\r' || c == '\x0b' || c == '\x0c'

/-- The character class `[\s\w\d\.]` used by every capture group that
`AAGCloudSensor.query` builds (lines 146 and 154): whitespace, word
characters (alphanumerics and underscore) and the dot. -/
def stdClass (c : Char) : Bool :=
  isPySpace c || c.isAlphanum || c == '_' || c == '.'

/-- One field of a response pattern: a literal expected code (such as
`!2`) followed by a capture group of exactly `width` characters drawn
from the class `klass`.  `query` builds one such field per expected
response (the `'!'` escaping in the Python source is regex syntax only;
the code is matched literally). -/
structure FieldSpec where
  pref : List Char
  klass : Char → Bool
  width : Nat

/-- Python slice `s[-15:]`: the last fifteen characters (the whole
string when it is shorter). -/
def lastN (n : Nat) (s : List Char) : List Char := s.drop (s.length - n)

/-- Python slice `s[0:-15]`: the payload block, everything before the
final fifteen characters (empty when the string is shorter than 15). -/
def payloadOf (s : List Char) : List Char := s.take (s.length - 15)

/-- The handshake sentinel sent by a well-behaved device:
`'!'`, DC1, twelve spaces, `'0'`. -/
def sentinelBlock : List Char :=
  '!' :: Char.ofNat 17 :: (List.replicate 12 ' ' ++ ['0'])

/-- `re.match('!'+chr(17)+'\s{12}0', s)` (line 171 of the source): the
first fifteen characters of `s` must be `!`, DC1, twelve whitespace
characters and `0`.  `re.match` anchors at the start only, so the string
may be longer, but all fifteen mandatory characters must be present. -/
def matchHSB (s : List Char) : Bool :=
  decide (15 ≤ s.length) && s.getD 0 '!' == '!' && s.getD 1 '!' == Char.ofNat 17
    && (List.range 12).all (fun i => isPySpace (s.getD (2 + i) '!'))
    && s.getD 14 '!' == '0'

/-- The handshake check of `query` (line 171): match the sentinel
pattern against the last fifteen characters of the response buffer. -/
def HSBgood (resp : List Char) : Bool := matchHSB (lastN 15 resp)

/-- `re.match` of a pattern built from `FieldSpec`s against a payload:
each field is its literal code followed by exactly `width` characters of
its class, captured as one group; characters after the last field are
ignored (`re.match` is prefix matching).  Produces the list of captured
groups, or nothing on a mismatch — a mismatch carries no partial
captures. -/
def matchFields : List FieldSpec → List Char → Option (List (List Char))
  | [], _ => some []
  | f :: fs, s =>
    if f.pref.isPrefixOf s then
      let rest := s.drop f.pref.length
      let cap := rest.take f.width
      if cap.length == f.width && cap.all f.klass then
        (matchFields fs (rest.drop f.width)).map (cap :: ·)
      else none
    else none

/-- One attempt of `query` (lines 164-192): check the handshake on the
last fifteen bytes, match the response pattern against the payload
block, and capture the fields only when both checks pass.  A rejected
attempt produces nothing. -/
def attempt (specs : List FieldSpec) (resp : List Char) : Option (List (List Char)) :=
  if HSBgood resp then matchFields specs (payloadOf resp) else none

/-- Python truthiness of the `result` built from the captured groups
(lines 184-190): one captured field is unwrapped to a string, falsy
exactly when empty; several fields form a list, falsy exactly when
empty. -/
def resultTruthy (caps : List (List Char)) : Bool :=
  match caps with
  | [c] => !c.isEmpty
  | cs => !cs.isEmpty

/-- What one iteration of the `query` retry loop leaves in `result`: the
captured fields when both checks pass and the value is truthy, nothing
otherwise (so the loop retries). -/
def attemptAccepted (specs : List FieldSpec) (resp : List Char) : Option (List (List Char)) :=
  match attempt specs resp with
  | some caps => if resultTruthy caps then some caps else none
  | none => none

/-- Pattern built by `query` for a short string `expect` (line 146): the
literal code followed by a 13-character capture of `[\s\w\d\.]`.  (When
`len(expect) > 2` the caller's literal regex is used verbatim instead;
the serial-number query is the only such caller and is not needed for
the claims.) -/
def mkSinglePattern (expect : List Char) : List FieldSpec :=
  [⟨expect, stdClass, 13⟩]

/-- Pattern built by `query` for a list `expect` (lines 150-154): one
field per expected code, every field followed by a capture of width
`15 - len(expect[1])` — the width is always derived from the second
element, whichever field is being sized.  A list with fewer than two
elements raises `IndexError` in Python, modelled as `none`. -/
def mkListPattern (expect : List (List Char)) : Option (List FieldSpec) :=
  match expect.get? 1 with
  | none => none
  | some p1 => some (expect.map fun p => ⟨p, stdClass, 15 - p1.length⟩)

/-- The retry loop of `query` (lines 161-196).  The transport reads are
supplied as the list of response buffers, one per attempt; a missing
read is the empty buffer, as a timed-out serial read returns no bytes.
`tries` counts the attempts already made and the last argument is
`max_tries - tries`; the Python `while` loop always runs at least once,
and keeps retrying exactly while the attempt failed and
`tries < max_tries`.  Returns the result and the number of attempts
made. -/
def queryGo (specs : List FieldSpec) (bufs : List (List Char)) (tries : Nat) :
    Nat → Option (List (List Char)) × Nat
  | 0 =>
    match attemptAccepted specs (bufs.headD []) with
    | some caps => (some caps, tries + 1)
    | none => (none, tries + 1)
  | 1 =>
    match attemptAccepted specs (bufs.headD []) with
    | some caps => (some caps, tries + 1)
    | none => (none, tries + 1)
  | r + 2 =>
    match attemptAccepted specs (bufs.headD []) with
    | some caps => (some caps, tries + 1)
    | none => queryGo specs bufs.tail (tries + 1) (r + 1)

/-- `AAGCloudSensor.query` (lines 142-196) for an already-built pattern:
send the command, then run the bounded retry loop over the successive
transport reads.  The command `send` goes out on the wire but the
outcome is determined by the pattern and the responses alone. -/
def query (send : List Char) (specs : List FieldSpec) (maxTries : Nat)
    (bufs : List (List Char)) : Option (List (List Char)) :=
  let _ := send
  (queryGo specs bufs 0 maxTries).1

/-- Tri-state switch position of `AAGCloudSensor.get_switch`. -/
inductive SwitchState where
  | OPEN
  | CLOSED
  | UNKNOWN
deriving DecidableEq

/-- The `!F` command sent by both switch probes. -/
def cmdF : List Char := ['!', 'F']

/-- Pattern of the open-signature probe `query('!F', '!X', max_tries=2)`. -/
def patX : List FieldSpec := mkSinglePattern ['!', 'X']

/-- Pattern of the closed-signature probe `query('!F', '!Y', max_tries=2)`. -/
def patY : List FieldSpec := mkSinglePattern ['!', 'Y']

/-- The outer loop of `get_switch` (lines 353-369).  `o i` and `c i` are
the transport reads consumed by round `i`'s open probe and closed probe;
`tries` counts rounds already made and the last argument is
`3 - tries`.  Each round issues both probes, each a `query` with
`max_tries = 2`; a round where exactly one probe matched resolves the
state, otherwise the round is inconclusive and the loop retries, giving
up with `UNKNOWN` once `tries` reaches 3. -/
def get_switchGo (o c : Nat → List (List Char)) (tries : Nat) : Nat → SwitchState
  | 0 =>
    match (query cmdF patX 2 (o tries)).isSome, (query cmdF patY 2 (c tries)).isSome with
    | true, false => .OPEN
    | false, true => .CLOSED
    | _, _ => .UNKNOWN
  | 1 =>
    match (query cmdF patX 2 (o tries)).isSome, (query cmdF patY 2 (c tries)).isSome with
    | true, false => .OPEN
    | false, true => .CLOSED
    | _, _ => .UNKNOWN
  | r + 2 =>
    match (query cmdF patX 2 (o tries)).isSome, (query cmdF patY 2 (c tries)).isSome with
    | true, false => .OPEN
    | false, true => .CLOSED
    | _, _ => get_switchGo o c (tries + 1) (r + 1)

/-- `AAGCloudSensor.get_switch` (lines 345-370): up to three rounds of
the dual-probe consensus loop, starting with no rounds made. -/
def get_switch (o c : Nat → List (List Char)) : SwitchState :=
  get_switchGo o c 0 3

/-- The verdict of one consensus round as the specification's truth
table states it: `(open-match, closed-match)`, `(true,false)` resolves
OPEN, `(false,true)` resolves CLOSED, anything else is inconclusive. -/
def roundStatus (o c : Bool) : Option SwitchState :=
  if o && !c then some .OPEN else if !o && c then some .CLOSED else none

/-- The specification's resolver over three round verdicts: the first
conclusive round wins, three inconclusive rounds give UNKNOWN. -/
def switchTruthTable (r1 r2 r3 : Option SwitchState) : SwitchState :=
  match r1 with
  | some s => s
  | none =>
    match r2 with
    | some s => s
    | none =>
      match r3 with
      | some s => s
      | none => .UNKNOWN

/-- Ascending insertion used to model the sort inside `np.median`. -/
def insertR (x : Rat) : List Rat → List Rat
  | [] => [x]
  | y :: ys => if x ≤ y then x :: y :: ys else y :: insertR x ys

/-- Ascending sort used to model `np.median`. -/
def sortR (l : List Rat) : List Rat := l.foldr insertR []

/-- `np.median`: the middle element of the sorted list for odd length,
the mean of the two middle elements for even length. -/
def npMedian (l : List Rat) : Rat :=
  let s := sortR l
  let n := s.length
  if n % 2 = 1 then s.getD (n / 2) 0
  else (s.getD (n / 2 - 1) 0 + s.getD (n / 2) 0) / 2

/-- The quorum step shared by every sampling getter (lines 211-215,
235-239, 279-293): the median of the collected samples when at least 4
were collected, absent otherwise. -/
def quorumMedian (l : List Rat) : Option Rat :=
  if 4 ≤ l.length then some (npMedian l) else none

/-- Calibration of `get_ambient_temperature` (line 210):
`float(response)/100. + 273.15`. -/
def calibrateAmbient (v : Int) : Rat := (v : Rat) / 100 + 27315 / 100

/-- The sampling loop of `get_ambient_temperature` (lines 206-210) over
the outcomes `q` of the five `query('!T', '!2')` calls, each outcome
already parsed to an integer (`none` when `query` returned no result).
`int(self.query(...))` is applied before any check, so a `none` outcome
raises `TypeError` (`Except.error`); a parsed value is appended to the
sample list only when it is truthy, that is nonzero. -/
def ambientLoop (q : Nat → Option Int) : List Nat → Except Unit (List Rat)
  | [] => .ok []
  | i :: is =>
    match q i with
    | none => .error ()
    | some v =>
      (ambientLoop q is).map fun rest =>
        if v ≠ 0 then calibrateAmbient v :: rest else rest

/-- `AAGCloudSensor.get_ambient_temperature` (lines 199-215): five
queries, truthy responses calibrated and collected, then the 4-of-5
quorum median. -/
def get_ambient_temperature (q : Nat → Option Int) : Except Unit (Option Rat) :=
  (ambientLoop q (List.range 5)).map quorumMedian

/-- Calibration of `get_sky_temperature` (line 234):
`float(response)/100. + 273.15`. -/
def calibrateSky (v : Int) : Rat := (v : Rat) / 100 + 27315 / 100

/-- The sampling loop of `get_sky_temperature` (lines 230-234): here the
query result is checked for truthiness before conversion, so a `none`
outcome merely contributes no sample, and every returned value (a
nonempty captured string, truthy even when it parses to 0) is
calibrated and collected. -/
def skyLoop (q : Nat → Option Int) : List Nat → List Rat
  | [] => []
  | i :: is =>
    match q i with
    | none => skyLoop q is
    | some v => calibrateSky v :: skyLoop q is

/-- `AAGCloudSensor.get_sky_temperature` (lines 220-239). -/
def get_sky_temperature (q : Nat → Option Int) : Option Rat :=
  quorumMedian (skyLoop q (List.range 5))

/-- Calibration of the zener/internal voltage (lines 258-259):
`1023 * 3 / response`. -/
def calibrateZener (v : Int) : Rat := 1023 * 3 / (v : Rat)

/-- The clamp applied to the LDR and rain readings (lines 263-264,
270-271): values above 1022 become 1022, values below 1 become 1. -/
def clamp1022 (v : Int) : Int :=
  let v1 := if v > 1022 then 1022 else v
  if v1 < 1 then 1 else v1

/-- Calibration of the LDR resistance (lines 263-266):
clamp, then `56. / ((1023. / response) - 1.)`. -/
def calibrateLDR (v : Int) : Rat :=
  let w := clamp1022 v
  56 / (1023 / (w : Rat) - 1)

/-- Calibration of the rain-sensor temperature (lines 270-277): clamp,
then a beta-model conversion through the natural logarithm, which is an
external library function (`math.log`) supplied here as `logFn`:
`r = log(1 / ((1023/response) - 1) / 1)` and
`1. / (r / 3450. + 1. / (273.15 + 25.))`. -/
def calibrateRain (logFn : Rat → Rat) (v : Int) : Rat :=
  let w := clamp1022 v
  let r := logFn (1 / (1023 / (w : Rat) - 1) / 1)
  1 / (r / 3450 + 1 / (27315 / 100 + 25))

/-- The sampling loop of `get_values` (lines 250-277) over the outcomes
`q` of the five `query('!C', ['!6','!4','!5'])` calls, each outcome the
triple of parsed integers (`none` when `query` returned no result).
`responses[0]` is evaluated before any check, so a `none` outcome raises
`TypeError`; each component is appended to its sample list only when it
is truthy (nonzero), after its calibration. -/
def valuesLoop (logFn : Rat → Rat) (q : Nat → Option (Int × Int × Int)) :
    List Nat → Except Unit (List Rat × List Rat × List Rat)
  | [] => .ok ([], [], [])
  | i :: is =>
    match q i with
    | none => .error ()
    | some (z, l, r) =>
      (valuesLoop logFn q is).map fun (zs, ls, rs) =>
        (if z ≠ 0 then calibrateZener z :: zs else zs,
         if l ≠ 0 then calibrateLDR l :: ls else ls,
         if r ≠ 0 then calibrateRain logFn r :: rs else rs)

/-- `AAGCloudSensor.get_values` (lines 242-293): five queries for the
three analog values, then the 4-of-5 quorum median independently for
the internal voltage, the LDR resistance and the rain-sensor
temperature. -/
def get_values (logFn : Rat → Rat) (q : Nat → Option (Int × Int × Int)) :
    Except Unit (Option Rat × Option Rat × Option Rat) :=
  (valuesLoop logFn q (List.range 5)).map fun (zs, ls, rs) =>
    (quorumMedian zs, quorumMedian ls, quorumMedian rs)

/-- `AAGCloudSensor.get_PWM` (lines 298-314) over the parsed outcome of
`query('!Q', '!Q')`.  `int(self.query(...))` is applied before any
check, so a `none` outcome raises `TypeError`; a truthy (nonzero) value
is converted by `100. * result / 1023.`, and a dedicated branch converts
a raw 0 by the same formula instead of leaving the field null. -/
def get_PWM (q : Option Int) : Except Unit (Option Rat) :=
  match q with
  | none => .error ()
  | some result =>
    .ok (if result ≠ 0 then some (100 * (result : Rat) / 1023)
         else if result = 0 then some (100 * (result : Rat) / 1023)
         else none)

/-- The transport guard of `query` (line 143): `assert self.AAG` raises
`AssertionError` when the serial handle is absent; with a present
handle the query proceeds normally. -/
def queryWithTransport (transport : Option Unit) (send : List Char)
    (specs : List FieldSpec) (maxTries : Nat) (bufs : List (List Char)) :
    Except Unit (Option (List (List Char))) :=
  match transport with
  | none => .error ()
  | some _ => .ok (query send specs maxTries bufs)

/-- The number of device queries the constructor issues (lines 122-133):
the `if self.AAG:` guard skips the name, firmware and serial-number
queries entirely when the connection failed and the handle is absent. -/
def initQueryCount (transport : Option Unit) : Nat :=
  match transport with
  | none => 0
  | some _ => 3

/-- One row of the full telemetry log as `update_telemetry_files` builds
it (lines 542-552): timestamp, safety verdict, the seven numeric
readings (single-precision float columns, here `Rat`), the error string
and the switch state. -/
structure TelemetryRow where
  timestamp : List Char
  safe : List Char
  ambient : Rat
  sky : Rat
  wind : Rat
  voltage : Rat
  ldr : Rat
  rain : Rat
  pwm : Rat
  errors : List Char
  switch : List Char
deriving DecidableEq

/-- The readings held on the sensor object when a row is written: each
aggregated reading is either present or `None`. -/
structure Readings where
  ambient : Option Rat
  sky : Option Rat
  wind : Option Rat
  voltage : Option Rat
  ldr : Option Rat
  rain : Option Rat
  pwm : Option Rat
  errors : List Char
  switch : List Char

/-- The `.value` access on an aggregated reading (lines 544-549):
an absent reading is `None`, and `None.value` raises
`AttributeError`. -/
def qvalue : Option Rat → Except Unit Rat
  | none => .error ()
  | some v => .ok v

/-- A bare float cell (line 550, the PWM field has no `.value` access):
`add_row` converts the cell into the `f4` column, and `None` cannot be
converted to a float, raising an error. -/
def floatCell : Option Rat → Except Unit Rat
  | none => .error ()
  | some v => .ok v

/-- Construction of the `new_row` dict plus `add_row` conversion in
`update_telemetry_files` (lines 542-554): every numeric reading column
receives the aggregated value; an absent reading faults (the dict
construction raises `AttributeError` on `.value`, and a bare `None`
cannot enter a float column), so no row with a null numeric cell is
ever produced. -/
def buildTelemetryRow (ts safe : List Char) (r : Readings) : Except Unit TelemetryRow := do
  let ambient ← qvalue r.ambient
  let sky ← qvalue r.sky
  let wind ← qvalue r.wind
  let voltage ← qvalue r.voltage
  let ldr ← qvalue r.ldr
  let rain ← qvalue r.rain
  let pwm ← floatCell r.pwm
  .ok ⟨ts, safe, ambient, sky, wind, voltage, ldr, rain, pwm, r.errors, r.switch⟩

/-- The declared column order of the full telemetry log (lines
526-529). -/
def telemetryColumns : List (List Char) :=
  [['T','i','m','e','s','t','a','m','p'], ['S','a','f','e'],
   ['A','m','b','i','e','n','t'], ['S','k','y'], ['W','i','n','d'],
   ['V','o','l','t','a','g','e'], ['L','D','R'], ['R','a','i','n'],
   ['P','W','M'], ['E','r','r','o','r','s'], ['S','w','i','t','c','h']]

/-- The persistence step of `update_telemetry_files` for the full log
(lines 504-556), with the generic tabular reader/writer (astropy
`ascii.read`/`ascii.write`, an external collaborator) modelled as an
ordered record store: when the file exists its rows are loaded, the new
row is appended and the whole table is rewritten; when it does not
exist a fresh table with the fixed schema is created holding the new
row. -/
def update_telemetry_store (file : Option (List TelemetryRow)) (row : TelemetryRow) :
    Option (List TelemetryRow) :=
  match file with
  | some rows => some (rows ++ [row])
  | none => some ([] ++ [row])

/-- `AAGCloudSensor.read_AAG_telemetry` (lines 461-479) over the store
model: reading the log back returns exactly the stored ordered rows. -/
def read_AAG_telemetry (file : Option (List TelemetryRow)) : Option (List TelemetryRow) :=
  file

/-- Claim C1 as stated, for the ambient temperature: an attempt counts
as successful exactly when it yielded a numeric value, and the
aggregated reading is the median of the calibrated successes when at
least 4 of the 5 attempts succeeded, absent otherwise. -/
def C1AmbientAsStated : Prop :=
  ∀ q : Nat → Option Int,
    (4 ≤ ((List.range 5).filterMap q).length →
      get_ambient_temperature q =
        .ok (some (npMedian (((List.range 5).filterMap q).map calibrateAmbient)))) ∧
    (((List.range 5).filterMap q).length < 4 →
      get_ambient_temperature q = .ok none)

/-- Claim C7 as stated: no exception is raised by attempting a query
with an absent transport. -/
def C7AsStated : Prop :=
  ∀ (send : List Char) (specs : List FieldSpec) (maxTries : Nat)
    (bufs : List (List Char)),
    queryWithTransport none send specs maxTries bufs ≠ .error ()

/-- A successful pattern match captures one group per field. -/
theorem matchFields_length : ∀ (specs : List FieldSpec) (s : List Char)
    (caps : List (List Char)), matchFields specs s = some caps →
    caps.length = specs.length
  | [], s, caps, h => by
    simp only [matchFields, Option.some.injEq] at h
    simp [← h]
  | f :: fs, s, caps, h => by
    simp only [matchFields] at h
    split at h
    · split at h
      · cases hm : matchFields fs ((s.drop f.pref.length).drop f.width) with
        | none => rw [hm] at h; simp at h
        | some caps' =>
          rw [hm] at h
          simp at h
          have hlen := matchFields_length fs _ caps' hm
          simp [← h, hlen]
      · exact absurd h (by simp)
    · exact absurd h (by simp)

/-- Appending the fifteen-byte sentinel to any payload makes the
handshake check pass. -/
theorem HSBgood_append_sentinel (p : List Char) :
    HSBgood (p ++ sentinelBlock) = true := by
  have hlen : sentinelBlock.length = 15 := by decide
  have hdrop : lastN 15 (p ++ sentinelBlock) = sentinelBlock := by
    unfold lastN
    rw [List.length_append, hlen]
    have : p.length + 15 - 15 = p.length := by omega
    rw [this, List.drop_left]
  unfold HSBgood
  rw [hdrop]
  decide

/-- C2: a query attempt is accepted, with its fields captured, exactly
when both the handshake block at the end of the buffer matches the
sentinel pattern and the payload block matches the full expected
pattern; either check failing alone rejects the attempt, a rejected
attempt yields no captures at all, and an accepted attempt captures
every expected field.  Any buffer ending in the literal sentinel
`'!' DC1 ++ 12 spaces ++ '0'` passes the handshake check. -/
theorem C2_accept_iff_handshake_and_payload :
    ∀ (specs : List FieldSpec) (resp : List Char),
      ((attempt specs resp).isSome = true ↔
        (HSBgood resp = true ∧ (matchFields specs (payloadOf resp)).isSome = true))
      ∧ ((attempt specs resp).all (fun caps => caps.length == specs.length) = true)
      ∧ (∀ p : List Char, HSBgood (p ++ sentinelBlock) = true) := by
  intro specs resp
  refine ⟨?_, ?_, HSBgood_append_sentinel⟩
  · unfold attempt
    cases h : HSBgood resp <;> simp [h]
  · unfold attempt
    cases h : HSBgood resp
    · simp
    · simp only [if_pos rfl]
      cases hm : matchFields specs (payloadOf resp) with
      | none => simp
      | some caps =>
        simp [Option.all, matchFields_length specs _ caps hm]

/-- `getD` after `tail` looks one position further. -/
theorem getD_tail (l : List (List Char)) (i : Nat) :
    l.tail.getD i ([] : List Char) = l.getD (i + 1) [] := by
  cases l <;> simp [List.getD]

/-- Definitional equation: the last allowed iteration of the retry
loop. -/
theorem queryGo_one (specs : List FieldSpec) (bufs : List (List Char)) (tries : Nat) :
    queryGo specs bufs tries 1 =
      match attemptAccepted specs (bufs.headD []) with
      | some caps => (some caps, tries + 1)
      | none => (none, tries + 1) := rfl

/-- Definitional equation: an iteration of the retry loop with at least
one more allowed after it. -/
theorem queryGo_step (specs : List FieldSpec) (bufs : List (List Char)) (tries r : Nat) :
    queryGo specs bufs tries (r + 1 + 1) =
      match attemptAccepted specs (bufs.headD []) with
      | some caps => (some caps, tries + 1)
      | none => queryGo specs bufs.tail (tries + 1) (r + 1) := rfl

/-- The retry loop of `query`, when every one of the first `k + 1` reads
is rejected, makes exactly `k + 1` further attempts and returns no
result. -/
theorem queryGo_all_fail (specs : List FieldSpec) :
    ∀ (k : Nat) (bufs : List (List Char)) (tries : Nat),
      (∀ i, i < k + 1 → attemptAccepted specs (bufs.getD i []) = none) →
      queryGo specs bufs tries (k + 1) = (none, tries + (k + 1))
  | 0, bufs, tries, h => by
    have h0 := h 0 (by omega)
    have hh : bufs.headD [] = bufs.getD 0 [] := by cases bufs <;> rfl
    show queryGo specs bufs tries 1 = (none, tries + 1)
    rw [queryGo_one, hh, h0]
  | k + 1, bufs, tries, h => by
    have h0 := h 0 (by omega)
    have hh : bufs.headD [] = bufs.getD 0 [] := by cases bufs <;> rfl
    have ih := queryGo_all_fail specs k bufs.tail (tries + 1)
      (fun i hi => by rw [getD_tail]; exact h (i + 1) (by omega))
    have harith : tries + 1 + (k + 1) = tries + (k + 1 + 1) := by omega
    calc queryGo specs bufs tries (k + 1 + 1)
        = queryGo specs bufs.tail (tries + 1) (k + 1) := by rw [queryGo_step, hh, h0]
      _ = (none, tries + 1 + (k + 1)) := ih
      _ = (none, tries + (k + 1 + 1)) := by rw [harith]

/-- C3: for every pattern and every sequence of transport reads in which
each read returns a mismatching (rejected) frame, `query` makes exactly
`max_tries` attempts — never fewer — and then returns an absent result,
as a value rather than an exception. -/
theorem C3_query_exhausts_max_tries (specs : List FieldSpec) (maxTries : Nat)
    (bufs : List (List Char)) (h1 : 1 ≤ maxTries)
    (hfail : ∀ i, i < maxTries → attemptAccepted specs (bufs.getD i []) = none) :
    queryGo specs bufs 0 maxTries = (none, maxTries)
    ∧ ∀ send : List Char, query send specs maxTries bufs = none := by
  obtain ⟨m, rfl⟩ : ∃ m, maxTries = m + 1 := ⟨maxTries - 1, by omega⟩
  have h := queryGo_all_fail specs m bufs 0 hfail
  refine ⟨by simpa using h, fun send => ?_⟩
  unfold query
  simp [h]

/-- Witness for C3: with the switch-probe pattern and a transport that
never delivers a byte, five attempts are made and the result is
absent. -/
theorem C3_witness :
    queryGo patX ([] : List (List Char)) 0 5 = (none, 5)
    ∧ ∀ send : List Char, query send patX 5 [] = none :=
  C3_query_exhausts_max_tries patX 5 [] (by omega) (fun i _ => rfl)

/-- C4: when `query` receives a list of expected field codes with at
least two entries, the pattern it builds has one field per code and
every field's capture width is `15 - len(expect[1])`, derived from the
second code whichever field is being sized. -/
theorem C4_width_from_second (expect : List (List Char)) (h : 2 ≤ expect.length) :
    ∃ specs, mkListPattern expect = some specs ∧ specs.length = expect.length ∧
      ∀ s ∈ specs, s.width = 15 - (expect.getD 1 []).length := by
  match expect, h with
  | a :: b :: rest, _ =>
    refine ⟨(a :: b :: rest).map fun p => ⟨p, stdClass, 15 - b.length⟩, rfl, by simp, ?_⟩
    intro s hs
    simp only [List.mem_map] at hs
    obtain ⟨p, _, rfl⟩ := hs
    rfl

/-- Witness for C4: for the expected fields `["!6","!4","!5"]` of the
`!C` query, every field's width is `15 - len("!4") = 13`. -/
theorem C4_witness :
    (2 ≤ ([['!','6'], ['!','4'], ['!','5']] : List (List Char)).length)
    ∧ ∃ specs, mkListPattern [['!','6'], ['!','4'], ['!','5']] = some specs ∧
        specs.length = 3 ∧ ∀ s ∈ specs, s.width = 13 :=
  ⟨by decide, C4_width_from_second [['!','6'], ['!','4'], ['!','5']] (by decide)⟩

/-- C5: the switch consensus resolver runs up to three rounds, each
issuing the open probe and the closed probe — each a `query` with
`max_tries = 2` — and its outcome is exactly the specification's truth
table over the three rounds' probe matches: the first round where
exactly one probe matched resolves to OPEN or CLOSED, and three
inconclusive rounds (both or neither matched) resolve to UNKNOWN. -/
theorem C5_switch_consensus_truth_table :
    ∀ o c : Nat → List (List Char),
      get_switch o c =
        switchTruthTable
          (roundStatus (query cmdF patX 2 (o 0)).isSome (query cmdF patY 2 (c 0)).isSome)
          (roundStatus (query cmdF patX 2 (o 1)).isSome (query cmdF patY 2 (c 1)).isSome)
          (roundStatus (query cmdF patX 2 (o 2)).isSome (query cmdF patY 2 (c 2)).isSome) := by
  intro o c
  have e3 : get_switchGo o c 0 3 =
      match (query cmdF patX 2 (o 0)).isSome, (query cmdF patY 2 (c 0)).isSome with
      | true, false => SwitchState.OPEN
      | false, true => SwitchState.CLOSED
      | _, _ => get_switchGo o c 1 2 := rfl
  have e2 : get_switchGo o c 1 2 =
      match (query cmdF patX 2 (o 1)).isSome, (query cmdF patY 2 (c 1)).isSome with
      | true, false => SwitchState.OPEN
      | false, true => SwitchState.CLOSED
      | _, _ => get_switchGo o c 2 1 := rfl
  have e1 : get_switchGo o c 2 1 =
      match (query cmdF patX 2 (o 2)).isSome, (query cmdF patY 2 (c 2)).isSome with
      | true, false => SwitchState.OPEN
      | false, true => SwitchState.CLOSED
      | _, _ => SwitchState.UNKNOWN := rfl
  cases h1 : (query cmdF patX 2 (o 0)).isSome <;>
    cases h2 : (query cmdF patY 2 (c 0)).isSome <;>
    cases h3 : (query cmdF patX 2 (o 1)).isSome <;>
    cases h4 : (query cmdF patY 2 (c 1)).isSome <;>
    cases h5 : (query cmdF patX 2 (o 2)).isSome <;>
    cases h6 : (query cmdF patY 2 (c 2)).isSome <;>
    simp [get_switch, e3, e2, e1, roundStatus, switchTruthTable, h1, h2, h3, h4, h5, h6]

/-- The ambient sampling loop, when every query returns a value:
the truthy (nonzero) raw values are calibrated and collected in
order. -/
theorem ambientLoop_all_some (q : Nat → Int) : ∀ is : List Nat,
    ambientLoop (fun i => some (q i)) is =
      .ok (((is.map q).filter (fun v => v != 0)).map calibrateAmbient)
  | [] => rfl
  | i :: is => by
    have ih := ambientLoop_all_some q is
    simp only [ambientLoop, ih, List.map_cons, List.filter_cons]
    by_cases h : q i = 0
    · simp [h, Except.map]
    · simp [h, Except.map]

/-- The sky sampling loop: every returned value is calibrated and
collected, a missing result is skipped. -/
theorem skyLoop_eq (q : Nat → Option Int) : ∀ is : List Nat,
    skyLoop q is = (is.filterMap q).map calibrateSky
  | [] => rfl
  | i :: is => by
    have ih := skyLoop_eq q is
    cases h : q i <;> simp [skyLoop, h, ih, List.filterMap_cons]

/-- The analog-values sampling loop, when every query returns a triple:
each component's truthy (nonzero) raw values are calibrated and
collected in order. -/
theorem valuesLoop_all_some (logFn : Rat → Rat) (q : Nat → Int × Int × Int) :
    ∀ is : List Nat,
    valuesLoop logFn (fun i => some (q i)) is =
      .ok (((is.map fun i => (q i).1).filter (fun v => v != 0)).map calibrateZener,
           ((is.map fun i => (q i).2.1).filter (fun v => v != 0)).map calibrateLDR,
           ((is.map fun i => (q i).2.2).filter (fun v => v != 0)).map (calibrateRain logFn))
  | [] => rfl
  | i :: is => by
    have ih := valuesLoop_all_some logFn q is
    rcases hq : q i with ⟨z, l, r⟩
    simp only [valuesLoop, ih, hq, List.map_cons, List.filter_cons]
    by_cases hz : z = 0 <;> by_cases hl : l = 0 <;> by_cases hr : r = 0 <;>
      simp [hz, hl, hr, Except.map]

/-- C1 (amended): for each of the five sampled measurement types the
query is issued exactly five times (indexes `List.range 5`), and the
aggregated reading is the 4-of-5 quorum median of the calibrated
successful samples — where for the sky temperature every returned value
is a sample, while for the ambient temperature and the three analog
values only values parsing to a nonzero integer are samples, and those
getters are evaluated under the hypothesis that every query returned a
value (a query returning no result raises instead, see C6). -/
theorem C1_five_samples_quorum_median :
    (∀ q : Nat → Int,
        get_ambient_temperature (fun i => some (q i)) =
          .ok (quorumMedian ((((List.range 5).map q).filter (fun v => v != 0)).map
            calibrateAmbient)))
    ∧ (∀ q : Nat → Option Int,
        get_sky_temperature q =
          quorumMedian (((List.range 5).filterMap q).map calibrateSky))
    ∧ (∀ (logFn : Rat → Rat) (q : Nat → Int × Int × Int),
        get_values logFn (fun i => some (q i)) =
          .ok (quorumMedian ((((List.range 5).map fun i => (q i).1).filter
                 (fun v => v != 0)).map calibrateZener),
               quorumMedian ((((List.range 5).map fun i => (q i).2.1).filter
                 (fun v => v != 0)).map calibrateLDR),
               quorumMedian ((((List.range 5).map fun i => (q i).2.2).filter
                 (fun v => v != 0)).map (calibrateRain logFn)))) := by
  refine ⟨fun q => ?_, fun q => ?_, fun logFn q => ?_⟩
  · unfold get_ambient_temperature
    rw [ambientLoop_all_some]
    rfl
  · unfold get_sky_temperature
    rw [skyLoop_eq]
  · unfold get_values
    rw [valuesLoop_all_some]
    rfl

/-- C1 as stated is false on the code: five attempts that all yield the
numeric value 0 satisfy the claim's quorum of numeric values, yet the
aggregated ambient temperature is absent, because the code tests the
parsed value for truthiness and collects no sample for a 0. -/
theorem C1_refuted_on_zero_readings : ¬ C1AmbientAsStated := by
  intro h
  have h5 := (h (fun _ => some 0)).1 (by decide)
  have hev : get_ambient_temperature (fun _ => some (0 : Int)) = .ok none := rfl
  rw [hev] at h5
  simp at h5

/-- C6 is right about the intent but the code faults: when one of the
five queries yields no result, `get_ambient_temperature` and
`get_values` raise a `TypeError` (`int(None)` and `None[0]`) instead of
skipping the sample, aborting the sampling loop; `get_sky_temperature`,
which guards the result before converting it, shows the intended
behaviour on the same outcomes — the failed attempt contributes no
sample and the cycle continues to a 4-of-5 median. -/
theorem C6_failed_query_aborts_ambient_and_values :
    get_ambient_temperature (fun i => if i < 4 then some 1000 else none) = .error ()
    ∧ get_values (fun x => x) (fun i => if i < 4 then some (500, 500, 500) else none) =
        .error ()
    ∧ get_sky_temperature (fun i => if i < 4 then some 1000 else none) =
        some (5663 / 20) := by
  refine ⟨rfl, rfl, ?_⟩
  have hx : calibrateSky 1000 = 5663 / 20 := by norm_num [calibrateSky]
  have hlist : skyLoop (fun i => if i < 4 then some 1000 else none) (List.range 5) =
      [calibrateSky 1000, calibrateSky 1000, calibrateSky 1000, calibrateSky 1000] := rfl
  unfold get_sky_temperature
  rw [hlist, hx]
  norm_num [quorumMedian, npMedian, sortR, insertR]

/-- C7 as stated is false on the code: `query` begins with
`assert self.AAG`, so attempting a query with an absent transport
raises an `AssertionError` rather than returning quietly. -/
theorem C7_refuted_query_asserts_transport : ¬ C7AsStated := by
  intro h
  exact h [] [] 0 [] rfl

/-- C7 (amended): with an absent transport the constructor's guard
skips all of its device queries, and `query` itself refuses to run —
every call with an absent transport raises the assertion — while with a
present transport the query proceeds normally.  Querying is therefore
disabled for the session by caller-side guards, not by a non-raising
offline result. -/
theorem C7_absent_transport_disables_querying :
    (∀ (send : List Char) (specs : List FieldSpec) (maxTries : Nat)
        (bufs : List (List Char)),
        queryWithTransport none send specs maxTries bufs = .error ())
    ∧ initQueryCount none = 0
    ∧ (∀ (send : List Char) (specs : List FieldSpec) (maxTries : Nat)
        (bufs : List (List Char)),
        queryWithTransport (some ()) send specs maxTries bufs =
          .ok (query send specs maxTries bufs)) :=
  ⟨fun _ _ _ _ => rfl, rfl, fun _ _ _ _ => rfl⟩

/-- C8 is right about the intent but the code faults: a row whose
readings are all present is built with each numeric column holding the
aggregated value, but an absent reading cannot be written as null — the
`.value` access on `None` raises `AttributeError`, so the row is never
appended at all. -/
theorem C8_absent_reading_faults_row :
    (∀ (ts safeV : List Char) (a s w v l r p : Rat) (es sw : List Char),
        buildTelemetryRow ts safeV ⟨some a, some s, some w, some v, some l,
            some r, some p, es, sw⟩ =
          .ok ⟨ts, safeV, a, s, w, v, l, r, p, es, sw⟩)
    ∧ buildTelemetryRow [] [] ⟨none, some 0, some 0, some 0, some 0, some 0,
        some 0, [], []⟩ = .error () :=
  ⟨fun _ _ _ _ _ _ _ _ _ _ _ => rfl, rfl⟩

/-- Folding appends onto an existing table only ever extends it. -/
theorem foldl_update_store : ∀ (rows : List TelemetryRow) (init : List TelemetryRow),
    List.foldl update_telemetry_store (some init) rows = some (init ++ rows)
  | [], init => by simp
  | r :: rs, init => by
    have ih := foldl_update_store rs (init ++ [r])
    simp only [List.foldl_cons]
    show List.foldl update_telemetry_store (some (init ++ [r])) rs = some (init ++ r :: rs)
    rw [ih]
    simp

/-- C9: appending `N ≥ 1` telemetry rows in sequence — creating the log
on the first append, then loading, appending and rewriting — and
reading the log back yields exactly those `N` rows in insertion order;
moreover after every intermediate append the log holds exactly the rows
appended so far, so no existing row is ever altered. -/
theorem C9_append_only_read_back :
    ∀ (r : TelemetryRow) (rows : List TelemetryRow),
      read_AAG_telemetry (List.foldl update_telemetry_store none (r :: rows)) =
        some (r :: rows)
      ∧ ∀ k : Nat,
          read_AAG_telemetry
              (List.foldl update_telemetry_store none ((r :: rows).take (k + 1))) =
            some ((r :: rows).take (k + 1)) := by
  have main : ∀ (r : TelemetryRow) (rows : List TelemetryRow),
      List.foldl update_telemetry_store none (r :: rows) = some (r :: rows) := by
    intro r rows
    simp only [List.foldl_cons]
    show List.foldl update_telemetry_store (some ([] ++ [r])) rows = some (r :: rows)
    rw [foldl_update_store]
    simp
  intro r rows
  refine ⟨main r rows, fun k => ?_⟩
  rw [List.take_succ_cons]
  exact main r (rows.take k)

/-- C10: a parsed value of 0 is treated like a failed attempt by the
ambient-temperature sampler — the attempt contributes no sample because
the code tests the parsed integer for truthiness, even though 0 would
calibrate to 273.15 K — whereas `get_PWM` has a dedicated zero branch,
so a raw PWM of 0 yields the populated value 0.0 rather than null. -/
theorem C10_zero_skipped_but_pwm_populated (q : Nat → Option Int) (i : Nat)
    (is : List Nat) (h : q i = some 0) :
    ambientLoop q (i :: is) = ambientLoop q is
    ∧ get_PWM (some 0) = .ok (some 0)
    ∧ calibrateAmbient 0 = 27315 / 100 := by
  refine ⟨?_, by norm_num [get_PWM], by norm_num [calibrateAmbient]⟩
  simp only [ambientLoop, h]
  cases ambientLoop q is <;> simp [Except.map]

/-- Witness for C10: all five hypotheses discharged on the constant
zero outcome. -/
theorem C10_witness :
    (fun _ => some 0 : Nat → Option Int) 0 = some 0
    ∧ (ambientLoop (fun _ => some 0) (0 :: []) = ambientLoop (fun _ => some 0) []
       ∧ get_PWM (some 0) = .ok (some 0)
       ∧ calibrateAmbient 0 = 27315 / 100) :=
  ⟨rfl, C10_zero_skipped_but_pwm_populated (fun _ => some 0) 0 [] rfl⟩
